import Mathlib

/-!
Shallow embedding of the chat server in src/server.py (class ChatServer) and of
the message-classification step of src/client.py (method _receive_messages).

Modelling conventions:
  * sockets are natural numbers;
  * the Python dicts self.users and self.addresses are association lists with
    unique keys, in insertion order (Python dict iteration order);
  * the effect of socket.send is a delivery event (recipient, text); a call of
    _send_message to a connection in the set `failing` raises inside send and
    the exception is swallowed, so it produces no delivery event;
  * datetime.now() is an external input, passed as the timestamp argument.
-/

/-- Embeds the Python string method split() with no argument, as used in
server.py: split on runs of whitespace, producing no empty tokens.
Auxiliary recursion carrying the characters of the current token reversed. -/
def pySplitAux : List Char → List Char → List String
  | [], acc => if acc = [] then [] else [String.mk acc.reverse]
  | c :: cs, acc =>
    if c.isWhitespace then
      (if acc = [] then [] else [String.mk acc.reverse]) ++ pySplitAux cs []
    else pySplitAux cs (c :: acc)

/-- Embeds Python str.split() with no argument. -/
def pySplit (s : String) : List String :=
  pySplitAux s.toList []

/-- Embeds Python str.strip() with no argument: remove leading and trailing
whitespace, via List.dropWhile on the character list and its reverse. -/
def pyStrip (s : String) : String :=
  String.mk (((s.toList.dropWhile Char.isWhitespace).reverse.dropWhile
      Char.isWhitespace).reverse)

/-- Embeds the Python membership test `pattern in s` on strings: substring
containment, checked position by position. -/
def pyInAux (pat : List Char) : List Char → Bool
  | [] => pat.isEmpty
  | c :: cs => (pat == (c :: cs).take pat.length) || pyInAux pat cs

/-- Embeds Python `pattern in s` for strings. -/
def pyIn (pattern s : String) : Bool :=
  pyInAux pattern.toList s.toList

/-- The server state that the claims concern: the two dicts of ChatServer.
users maps a socket to its username, addresses maps a socket to the text of
its remote address. -/
structure ServerState where
  users : List (Nat × String)
  addresses : List (Nat × String)
deriving Repr, DecidableEq

/-- Embeds _send_message: one send to one client; an exception (peer in
`failing`) is caught and logged, so it yields no delivery event. -/
def sendMessage (failing : List Nat) (client : Nat) (message : String) :
    List (Nat × String) :=
  if client ∈ failing then [] else [(client, message)]

/-- Embeds broadcast: iterate over the registered sockets in order and send the
message to each one different from `exclude` (the Python default exclude=None
is `none`, which equals no socket). -/
def broadcast (failing : List Nat) (users : List (Nat × String))
    (message : String) (exclude : Option Nat) : List (Nat × String) :=
  match users with
  | [] => []
  | (c, _) :: rest =>
    (if some c ≠ exclude then sendMessage failing c message else []) ++
      broadcast failing rest message exclude

/-- Embeds _remove_client on the dict state: delete the socket key from users
and from addresses when present (Python dict keys are unique, so deleting the
key is filtering it out), then close the handle (no observable dict effect). -/
def removeClient (st : ServerState) (client : Nat) : ServerState :=
  { users := st.users.filter (fun p => p.1 ≠ client),
    addresses := st.addresses.filter (fun p => p.1 ≠ client) }

/-- Embeds _handle_quit: farewell to the quitting client, removal from the
dicts, then a departure broadcast over the remaining registered sockets. -/
def handleQuit (failing : List Nat) (st : ServerState) (client : Nat)
    (username : String) : ServerState × List (Nat × String) :=
  let out1 := sendMessage failing client "Goodbye!"
  let st2 := removeClient st client
  (st2, out1 ++ broadcast failing st2.users
      (username ++ " has left the chat.") none)

/-- Embeds the private-message line _handle_whisper sends to the recipient. -/
def pmToRecipient (sender message : String) : String :=
  "[PM from " ++ sender ++ "] " ++ message

/-- Embeds the confirmation line _handle_whisper sends back to the sender. -/
def pmToSender (recipient message : String) : String :=
  "[PM to " ++ recipient ++ "] " ++ message

/-- Embeds _handle_whisper: unpacking `_, recipient, *message_parts` of
command.split() raises ValueError exactly when there are fewer than two
tokens, answered by the usage line; otherwise the first registered socket
whose username equals the recipient (Python next over users.items()) gets the
private message and the sender gets a confirmation, or the sender alone gets a
not-online notice. -/
def handleWhisper (failing : List Nat) (users : List (Nat × String))
    (client : Nat) (command sender : String) : List (Nat × String) :=
  match pySplit command with
  | _ :: recipient :: messageParts =>
    let message := String.intercalate " " messageParts
    match users.find? (fun p => p.2 == recipient) with
    | some rs =>
      sendMessage failing rs.1 (pmToRecipient sender message) ++
        sendMessage failing client (pmToSender recipient message)
    | none =>
      sendMessage failing client ("User " ++ recipient ++ " is not online.")
  | _ => sendMessage failing client "Usage: /whisper <username> <message>"

/-- Embeds _show_online_users: comma join of the sorted usernames. -/
def showOnlineUsers (failing : List Nat) (st : ServerState) (client : Nat) :
    List (Nat × String) :=
  sendMessage failing client
    ("Users online: " ++
      String.intercalate ", " ((st.users.map Prod.snd).mergeSort (· ≤ ·)))

/-- Embeds _show_help: the static help text to the asking client. -/
def showHelp (failing : List Nat) (client : Nat) : List (Nat × String) :=
  sendMessage failing client "\nAvailable commands:\n/help - Show this help message\n/online - Show online users\n/quit - Leave the chat\n/whisper <username> <message> - Send private message\n        "

/-- The reply _handle_command sends for an unrecognized command token. -/
def unknownReply : String :=
  "Unknown command. Type /help for available commands."

/-- Embeds _handle_command: the first token of command.split() is looked up in
the dict of handlers by exact string equality (Python dict lookup is
case-sensitive); anything else gets the unknown-command reply. The caller
guarantees the command starts with a slash, so the token list is nonempty. -/
def handleCommand (failing : List Nat) (st : ServerState) (client : Nat)
    (command username : String) : ServerState × List (Nat × String) :=
  let cmd := (pySplit command).headD ""
  if cmd = "/quit" then
    handleQuit failing st client username
  else if cmd = "/online" then
    (st, showOnlineUsers failing st client)
  else if cmd = "/help" then
    (st, showHelp failing client)
  else if cmd = "/whisper" then
    (st, handleWhisper failing st.users client command username)
  else
    (st, sendMessage failing client unknownReply)

/-- Embeds the Python test message.startswith of the one-character prefix
used in _process_client_messages: the first character is a slash. -/
def startsWithSlash (s : String) : Bool :=
  match s.toList with
  | [] => false
  | c :: _ => c == '/'

/-- Embeds one iteration of the _process_client_messages loop body for one
nonempty received line: a line starting with a slash goes to the command
dispatcher, anything else is broadcast to every registered socket with no
exclusion and a timestamp prefix. -/
def processLine (failing : List Nat) (st : ServerState) (client : Nat)
    (username timestamp message : String) : ServerState × List (Nat × String) :=
  if startsWithSlash message then
    handleCommand failing st client message username
  else
    (st, broadcast failing st.users
        ("[" ++ timestamp ++ "] " ++ username ++ ": " ++ message) none)

/-- Embeds the finally block of _handle_client when the receive loop ends
without a /quit (peer closed the channel or a receive error): _remove_client
runs and nothing is sent or broadcast. -/
def teardownOnClose (st : ServerState) (client : Nat) :
    ServerState × List (Nat × String) :=
  (removeClient st client, [])

/-- Embeds _get_username as a function of the list of names currently
registered and the sequence of lines the client submits: each submission is
stripped; an empty result or a name already registered is rejected and the
next submission is considered; the first acceptable name is returned. -/
def getUsername (registered : List String) : List String → Option String
  | [] => none
  | raw :: rest =>
    let username := pyStrip raw
    if username ≠ "" ∧ username ∉ registered then some username
    else getUsername registered rest

/-- Embeds the message-type classification in _receive_messages of
src/client.py: a received line is rendered as a private message exactly when
it contains the text "whispered to you:". -/
def classifyReceived (message : String) : String :=
  if pyIn "whispered to you:" message then "private" else "normal"

/-- One atomic action in an interleaved execution of the registration path:
`check t` is the uniqueness test inside _get_username run by the thread of
connection t, `insert t` is the dict assignment self.users[client] = username
in _handle_client. The source has no lock, so actions of different threads
may interleave arbitrarily. -/
inductive RegAction where
  | check (t : Nat)
  | insert (t : Nat)
deriving Repr, DecidableEq

/-- State of the interleaved registration race: the shared users dict and the
set of threads whose uniqueness check has succeeded (program order lets a
thread insert only after its check passed). -/
structure RaceState where
  users : List (Nat × String)
  passed : List Nat
deriving Repr, DecidableEq

/-- One step of the interleaved registration race for a desired name. -/
def regStep (name : String) (st : RaceState) : RegAction → RaceState
  | .check t =>
    if name ∈ st.users.map Prod.snd then st
    else { st with passed := t :: st.passed }
  | .insert t =>
    if t ∈ st.passed then { st with users := st.users ++ [(t, name)] } else st

/-- Run a schedule of interleaved registration actions. -/
def runRace (name : String) (acts : List RegAction) (st : RaceState) :
    RaceState :=
  acts.foldl (regStep name) st

/-! Helper lemmas about broadcast and the registry lists. -/

/-- Any delivery event of broadcast names a registered socket. -/
theorem broadcast_mem_fst (failing : List Nat) (users : List (Nat × String))
    (message : String) (exclude : Option Nat) (c : Nat) (m : String)
    (h : (c, m) ∈ broadcast failing users message exclude) :
    c ∈ users.map Prod.fst := by
  induction users with
  | nil => simp [broadcast] at h
  | cons p rest ih =>
    obtain ⟨a, b⟩ := p
    simp only [broadcast, List.mem_append] at h
    simp only [List.map_cons, List.mem_cons]
    rcases h with h | h
    · left
      split at h
      · unfold sendMessage at h
        split at h
        · simp at h
        · simp only [List.mem_singleton, Prod.mk.injEq] at h
          exact h.1
      · simp at h
    · right
      exact ih h

/-- A socket that is registered, not excluded and not failing receives the
broadcast message. -/
theorem mem_broadcast (failing : List Nat) (users : List (Nat × String))
    (message : String) (exclude : Option Nat) (c : Nat)
    (hc : c ∈ users.map Prod.fst) (hex : some c ≠ exclude) (hf : c ∉ failing) :
    (c, message) ∈ broadcast failing users message exclude := by
  induction users with
  | nil => simp at hc
  | cons p rest ih =>
    obtain ⟨a, b⟩ := p
    simp only [List.map_cons, List.mem_cons] at hc
    simp only [broadcast, List.mem_append]
    rcases hc with h | h
    · left
      subst h
      rw [if_pos hex]
      simp [sendMessage, hf]
    · right
      exact ih h

/-- The excluded socket never appears among the delivery events. -/
theorem broadcast_ne_excluded (failing : List Nat) (users : List (Nat × String))
    (message : String) (e : Nat) (m : String)
    (h : (e, m) ∈ broadcast failing users message (some e)) : False := by
  induction users with
  | nil => simp [broadcast] at h
  | cons p rest ih =>
    obtain ⟨a, b⟩ := p
    simp only [broadcast, List.mem_append] at h
    rcases h with h | h
    · split at h
      · rename_i hcond
        unfold sendMessage at h
        split at h
        · simp at h
        · simp only [List.mem_singleton, Prod.mk.injEq] at h
          exact hcond (by rw [h.1])
      · simp at h
    · exact ih h

/-- With no duplicate registered sockets, a registered, not excluded and not
failing socket receives the broadcast message exactly once. -/
theorem count_broadcast (failing : List Nat) (users : List (Nat × String))
    (message : String) (exclude : Option Nat) (c : Nat)
    (hnodup : (users.map Prod.fst).Nodup) (hc : c ∈ users.map Prod.fst)
    (hex : some c ≠ exclude) (hf : c ∉ failing) :
    (broadcast failing users message exclude).count (c, message) = 1 := by
  induction users with
  | nil => simp at hc
  | cons p rest ih =>
    obtain ⟨a, b⟩ := p
    simp only [List.map_cons, List.nodup_cons] at hnodup
    simp only [List.map_cons, List.mem_cons] at hc
    simp only [broadcast, List.count_append]
    rcases hc with h | h
    · subst h
      have h0 : (broadcast failing rest message exclude).count (c, message) = 0 := by
        rw [List.count_eq_zero]
        intro hmem
        exact hnodup.1 (broadcast_mem_fst _ _ _ _ _ _ hmem)
      rw [h0, if_pos hex]
      simp [sendMessage, hf]
    · have hne : c ≠ a := fun he => hnodup.1 (he ▸ h)
      have h0 : ((if some a ≠ exclude then sendMessage failing a message
          else []) : List (Nat × String)).count (c, message) = 0 := by
        rw [List.count_eq_zero]
        intro hmem
        split at hmem
        · unfold sendMessage at hmem
          split at hmem
          · simp at hmem
          · simp only [List.mem_singleton, Prod.mk.injEq] at hmem
            exact hne hmem.1
        · simp at hmem
      rw [h0, ih hnodup.2 h]

/-- C8: broadcast delivers the message to every connection registered at call
time except the excluded one; a delivery only consults whether its own
recipient is failing, so a send failure at any one recipient (any failing
set) never suppresses delivery to a remaining healthy recipient, and the
excluded connection receives nothing. -/
theorem broadcast_delivery (failing : List Nat) (users : List (Nat × String))
    (message : String) (exclude : Option Nat) (c : Nat)
    (hc : c ∈ users.map Prod.fst) (hex : some c ≠ exclude) (hf : c ∉ failing) :
    (c, message) ∈ broadcast failing users message exclude ∧
      ∀ e m, exclude = some e →
        (e, m) ∉ broadcast failing users message exclude := by
  refine ⟨mem_broadcast failing users message exclude c hc hex hf, ?_⟩
  intro e m he hmem
  subst he
  exact broadcast_ne_excluded failing users message e m hmem

/-- Witness for C8: with recipient 2 failing mid-broadcast, socket 3 still
receives the message, and the excluded socket 1 receives nothing. -/
theorem broadcast_delivery_witness :
    (3, "hi") ∈ broadcast [2] [(1, "a"), (2, "b"), (3, "c")] "hi" (some 1) ∧
      ∀ e m, (some 1 : Option Nat) = some e →
        (e, m) ∉ broadcast [2] [(1, "a"), (2, "b"), (3, "c")] "hi" (some 1) :=
  broadcast_delivery [2] [(1, "a"), (2, "b"), (3, "c")] "hi" (some 1) 3
    (by decide) (by decide) (by decide)

/-- C1 counterexample: alice (socket 1) receives her own chat line back,
because _process_client_messages broadcasts a plain line with no exclusion;
the claim that the sender does not receive the echoed broadcast is false. -/
theorem chat_echoed_to_sender :
    (1, "[12:00:00] alice: hello") ∈
      (processLine [] ⟨[(1, "alice"), (2, "bob"), (3, "carol")], []⟩ 1 "alice"
        "12:00:00" "hello").2 := by decide

/-- C1 amended: when a registered client sends a plain chat line, every
registered client with a working channel — the sender included — receives the
single timestamped line carrying the sender name and the text verbatim. -/
theorem chat_broadcast_includes_sender (failing : List Nat) (st : ServerState)
    (client c : Nat) (username timestamp message : String)
    (hplain : startsWithSlash message = false)
    (hc : c ∈ st.users.map Prod.fst) (hf : c ∉ failing) :
    (c, "[" ++ timestamp ++ "] " ++ username ++ ": " ++ message) ∈
      (processLine failing st client username timestamp message).2 := by
  unfold processLine
  rw [hplain]
  simp only [Bool.false_eq_true, if_false]
  exact mem_broadcast _ _ _ _ _ hc (by simp) hf

/-- Witness for C1 amended: bob hears alice even while carol is failing, and
alice hears herself. -/
theorem chat_broadcast_includes_sender_witness :
    (2, "[12:00:00] alice: hello") ∈
      (processLine [3] ⟨[(1, "alice"), (2, "bob"), (3, "carol")], []⟩ 1 "alice"
        "12:00:00" "hello").2 :=
  chat_broadcast_includes_sender [3]
    ⟨[(1, "alice"), (2, "bob"), (3, "carol")], []⟩ 1 2 "alice" "12:00:00"
    "hello" (by decide) (by decide) (by decide)

/-- Registered sockets after a removal are the other registered sockets. -/
theorem map_fst_filter_ne (l : List (Nat × String)) (client : Nat) :
    (l.filter (fun p => p.1 ≠ client)).map Prod.fst =
      (l.map Prod.fst).filter (fun k => k ≠ client) := by
  induction l with
  | nil => rfl
  | cons p rest ih =>
    by_cases h : p.1 = client
    · simpa [List.filter_cons, h] using ih
    · simpa [List.filter_cons, h] using ih

/-- C2 counterexample: when carol (socket 3) leaves by closing the channel
rather than by /quit, the teardown runs _remove_client alone, so alice
(socket 1) receives zero departure notices instead of exactly one. -/
theorem peer_close_sends_no_notice :
    ((teardownOnClose ⟨[(1, "alice"), (2, "bob"), (3, "carol")],
        [(3, "203.0.113.9")]⟩ 3).2).count (1, "carol has left the chat.")
      = 0 := by decide

/-- C2 amended: the departure broadcast happens only on the /quit path. There,
_handle_quit unregisters the connection and then broadcasts over the
remaining registered sockets, so each remaining registered client with a
working channel receives the departure notice exactly once; on a peer close,
the teardown unregisters the connection but broadcasts nothing. -/
theorem departure_notice_on_quit_only (failing : List Nat) (st : ServerState)
    (client c : Nat) (username : String)
    (hnodup : (st.users.map Prod.fst).Nodup)
    (hc : c ∈ st.users.map Prod.fst) (hcc : c ≠ client) (hf : c ∉ failing) :
    ((handleQuit failing st client username).2).count
        (c, username ++ " has left the chat.") = 1 ∧
      (handleQuit failing st client username).1 = removeClient st client ∧
      (teardownOnClose st client).1 = removeClient st client ∧
      (teardownOnClose st client).2 = [] := by
  refine ⟨?_, rfl, rfl, rfl⟩
  show (sendMessage failing client "Goodbye!" ++
      broadcast failing (removeClient st client).users
        (username ++ " has left the chat.") none).count
      (c, username ++ " has left the chat.") = 1
  rw [List.count_append]
  have h1 : (sendMessage failing client "Goodbye!").count
      (c, username ++ " has left the chat.") = 0 := by
    rw [List.count_eq_zero]
    intro hmem
    unfold sendMessage at hmem
    split at hmem
    · simp at hmem
    · simp only [List.mem_singleton, Prod.mk.injEq] at hmem
      exact hcc hmem.1
  have hkeys : (removeClient st client).users.map Prod.fst =
      (st.users.map Prod.fst).filter (fun k => k ≠ client) :=
    map_fst_filter_ne st.users client
  have hnodup2 : ((removeClient st client).users.map Prod.fst).Nodup := by
    rw [hkeys]
    exact hnodup.filter _
  have hc2 : c ∈ (removeClient st client).users.map Prod.fst := by
    rw [hkeys]
    exact List.mem_filter.mpr ⟨hc, by simp [hcc]⟩
  rw [h1, count_broadcast failing (removeClient st client).users
    (username ++ " has left the chat.") none c hnodup2 hc2 (by simp) hf]

/-- Witness for C2 amended at the scenario state: after carol quits, alice
hears exactly one departure notice, the quit path unregistered carol, and the
close path for carol would have sent nothing. -/
theorem departure_notice_on_quit_only_witness :
    ((handleQuit [] ⟨[(1, "alice"), (2, "bob"), (3, "carol")], []⟩ 3
        "carol").2).count (1, "carol has left the chat.") = 1 ∧
      (handleQuit [] ⟨[(1, "alice"), (2, "bob"), (3, "carol")], []⟩ 3
          "carol").1 =
        removeClient ⟨[(1, "alice"), (2, "bob"), (3, "carol")], []⟩ 3 ∧
      (teardownOnClose ⟨[(1, "alice"), (2, "bob"), (3, "carol")], []⟩ 3).1 =
        removeClient ⟨[(1, "alice"), (2, "bob"), (3, "carol")], []⟩ 3 ∧
      (teardownOnClose ⟨[(1, "alice"), (2, "bob"), (3, "carol")], []⟩ 3).2 =
        [] :=
  departure_notice_on_quit_only []
    ⟨[(1, "alice"), (2, "bob"), (3, "carol")], []⟩ 3 1 "carol" (by decide)
    (by decide) (by decide) (by decide)

/-- C3 counterexample: the token lookup in _handle_command is an exact
string match, so /QUIT is answered with the unknown-command reply and the
sender stays registered, while the claim says /QUIT dispatches to the same
handler as /quit. -/
theorem dispatch_rejects_uppercase_quit :
    handleCommand [] ⟨[(1, "alice"), (2, "bob")], []⟩ 1 "/QUIT" "alice" =
      (⟨[(1, "alice"), (2, "bob")], []⟩, [(1, unknownReply)]) := by decide

/-- C3 amended: the dispatcher matches the first whitespace-delimited token
against the fixed command set by exact, case-sensitive string equality: the
exact token /quit reaches the quit handler, while every other token — a
differently cased /QUIT included — earns the sender alone the unknown-command
reply and leaves the state unchanged; arguments are passed to handlers in the
original line, case intact. -/
theorem dispatch_case_sensitive (failing : List Nat) (st : ServerState)
    (client : Nat) (username : String) :
    (∀ command, (pySplit command).headD "" ∉
        (["/quit", "/online", "/help", "/whisper"] : List String) →
      handleCommand failing st client command username =
        (st, sendMessage failing client unknownReply)) ∧
      handleCommand failing st client "/quit now" username =
        handleQuit failing st client username ∧
      handleCommand failing st client "/QUIT" username =
        (st, sendMessage failing client unknownReply) := by
  have hmain : ∀ command, (pySplit command).headD "" ∉
      (["/quit", "/online", "/help", "/whisper"] : List String) →
      handleCommand failing st client command username =
        (st, sendMessage failing client unknownReply) := by
    intro command hcmd
    simp only [List.mem_cons, List.not_mem_nil, or_false, not_or] at hcmd
    obtain ⟨h1, h2, h3, h4⟩ := hcmd
    unfold handleCommand
    rw [if_neg h1, if_neg h2, if_neg h3, if_neg h4]
  refine ⟨hmain, ?_, hmain "/QUIT" (by decide)⟩
  unfold handleCommand
  rw [if_pos]
  decide
  
/-- Witness for C3 amended: a token outside the command set is answered with
the unknown-command reply. -/
theorem dispatch_case_sensitive_witness :
    handleCommand [] ⟨[(1, "alice")], []⟩ 1 "/list" "alice" =
      (⟨[(1, "alice")], []⟩, sendMessage [] 1 unknownReply) :=
  (dispatch_case_sensitive [] ⟨[(1, "alice")], []⟩ 1 "alice").1 "/list"
    (by decide)

/-- C4 counterexample: /whisper bob carries a recipient but no message text;
the claim calls it malformed and says no private message is delivered, yet
bob receives an empty private message and alice a confirmation. -/
theorem whisper_missing_message_delivers :
    handleWhisper [] [(1, "alice"), (2, "bob")] 1 "/whisper bob" "alice" =
      [(2, "[PM from alice] "), (1, "[PM to bob] ")] := by decide

/-- C4 amended: only a /whisper with no arguments at all (fewer than two
tokens in the line, the ValueError of the unpacking) is answered with the
usage error to the sender alone, and nothing else is delivered; a /whisper
with a recipient but no message text is not treated as malformed — it is
routed as a whisper whose message is empty. -/
theorem whisper_usage_error_cases (failing : List Nat)
    (users : List (Nat × String)) (client : Nat) (sender : String) :
    (∀ command, (pySplit command).length ≤ 1 →
      handleWhisper failing users client command sender =
        sendMessage failing client "Usage: /whisper <username> <message>") ∧
      ∀ command t r rs, pySplit command = [t, r] →
        users.find? (fun p => p.2 == r) = some rs →
        handleWhisper failing users client command sender =
          sendMessage failing rs.1 (pmToRecipient sender "") ++
            sendMessage failing client (pmToSender r "") := by
  constructor
  · intro command hlen
    rcases hsp : pySplit command with _ | ⟨t, _ | ⟨r, rest⟩⟩
    · simp only [handleWhisper, hsp]
    · simp only [handleWhisper, hsp]
    · rw [hsp] at hlen
      simp at hlen
  · intro command t r rs hsp hfind
    simp only [handleWhisper, hsp, hfind]
    rfl

/-- Witness for C4 amended: a bare /whisper is answered with the usage line. -/
theorem whisper_usage_error_cases_witness :
    handleWhisper [] [(1, "alice"), (2, "bob")] 1 "/whisper" "alice" =
      sendMessage [] 1 "Usage: /whisper <username> <message>" :=
  (whisper_usage_error_cases [] [(1, "alice"), (2, "bob")] 1 "alice").1
    "/whisper" (by decide)

/-- With pairwise distinct registered usernames, the recipient lookup of
_handle_whisper finds exactly the socket registered under the name. -/
theorem find_registered (users : List (Nat × String)) (b : Nat) (name : String)
    (hnodup : (users.map Prod.snd).Nodup) (hmem : (b, name) ∈ users) :
    users.find? (fun p => p.2 == name) = some (b, name) := by
  induction users with
  | nil => simp at hmem
  | cons p rest ih =>
    simp only [List.map_cons, List.nodup_cons] at hnodup
    rcases List.mem_cons.mp hmem with h | h
    · subst h
      rw [List.find?_cons_of_pos]
      simp
    · have hname : name ∈ rest.map Prod.snd := by
        simpa using List.mem_map_of_mem Prod.snd h
      have hne : p.2 ≠ name := fun he => hnodup.1 (he ▸ hname)
      rw [List.find?_cons_of_neg]
      · exact ih hnodup.2 h
      · simp [hne]

/-- C5: for a well-formed whisper (a recipient token and message parts), under
the registry invariant that usernames are pairwise distinct, a socket
registered under exactly the recipient name receives exactly one
private-tagged message and the sender exactly one confirmation — those two
deliveries and no other; when no socket is registered under the name, the
sender alone receives the not-online notice. -/
theorem whisper_routing (failing : List Nat) (users : List (Nat × String))
    (client b : Nat) (command sender recipient t : String)
    (rest : List String)
    (htok : pySplit command = t :: recipient :: rest)
    (hnodup : (users.map Prod.snd).Nodup)
    (hclient : client ∉ failing) :
    ((b, recipient) ∈ users → b ∉ failing →
      handleWhisper failing users client command sender =
        [(b, pmToRecipient sender (String.intercalate " " rest)),
         (client, pmToSender recipient (String.intercalate " " rest))]) ∧
      ((∀ s, (s, recipient) ∉ users) →
        handleWhisper failing users client command sender =
          [(client, "User " ++ recipient ++ " is not online.")]) := by
  constructor
  · intro hmem hb
    have hfind := find_registered users b recipient hnodup hmem
    simp only [handleWhisper, htok, hfind]
    simp [sendMessage, hb, hclient]
  · intro habs
    have hfind : users.find? (fun p => p.2 == recipient) = none := by
      rw [List.find?_eq_none]
      intro x hx
      obtain ⟨x1, x2⟩ := x
      simp only [beq_iff_eq]
      intro he
      subst he
      exact habs x1 hx
    simp only [handleWhisper, htok, hfind]
    simp [sendMessage, hclient]

/-- Witness for C5: in the scenario, bob whispers carol and exactly carol
receives the private message while bob receives the confirmation. -/
theorem whisper_routing_witness :
    handleWhisper [] [(1, "alice"), (2, "bob"), (3, "carol")] 2
        "/whisper carol hi" "bob" =
      [(3, pmToRecipient "bob" (String.intercalate " " ["hi"])),
       (2, pmToSender "carol" (String.intercalate " " ["hi"]))] :=
  (whisper_routing [] [(1, "alice"), (2, "bob"), (3, "carol")] 2 3
      "/whisper carol hi" "bob" "carol" "/whisper" ["hi"] (by decide)
      (by decide) (by decide)).1 (by decide) (by decide)

/-- C6: the uniqueness check of _get_username and the insertion
self.users[client] = username in _handle_client are separate steps on a
shared dict with no lock, so the interleaving check-check-insert-insert of
two threads racing for the same name registers both of them — two sockets end
up holding the username alice — while a serialized order of the same two
attempts registers exactly one, as the claim requires of every schedule. -/
theorem registration_race_duplicates :
    (runRace "alice" [.check 1, .check 2, .insert 1, .insert 2]
        ⟨[], []⟩).users = [(1, "alice"), (2, "alice")] ∧
      (runRace "alice" [.check 1, .insert 1, .check 2, .insert 2]
        ⟨[], []⟩).users = [(1, "alice")] := by decide

/-- C7: removing a client is idempotent — removing it twice leaves the same
users and addresses maps as removing it once — and removing a socket that is
absent from both maps leaves the state unchanged. -/
theorem remove_client_idempotent (st : ServerState) (client : Nat) :
    removeClient (removeClient st client) client = removeClient st client ∧
      (client ∉ st.users.map Prod.fst → client ∉ st.addresses.map Prod.fst →
        removeClient st client = st) := by
  constructor
  · unfold removeClient
    simp [List.filter_filter]
  · intro h1 h2
    obtain ⟨u, a⟩ := st
    unfold removeClient
    simp only [ServerState.mk.injEq]
    constructor
    · apply List.filter_eq_self.mpr
      intro p hp
      simp only [decide_eq_true_eq]
      intro he
      exact h1 (he ▸ List.mem_map_of_mem Prod.fst hp)
    · apply List.filter_eq_self.mpr
      intro p hp
      simp only [decide_eq_true_eq]
      intro he
      exact h2 (he ▸ List.mem_map_of_mem Prod.fst hp)

/-- Witness for C7: removing an absent socket changes nothing. -/
theorem remove_client_idempotent_witness :
    removeClient ⟨[(1, "alice")], [(1, "198.51.100.7")]⟩ 2 =
      ⟨[(1, "alice")], [(1, "198.51.100.7")]⟩ :=
  (remove_client_idempotent ⟨[(1, "alice")], [(1, "198.51.100.7")]⟩ 2).2
    (by decide) (by decide)

/-- C9: the server delivers a whisper tagged with the pmToRecipient format,
but the client marks a received line private only when it contains the text
whispered to you:, which that format never produces — the delivered whisper
is classified normal, so the detection does not match the server format. -/
theorem whisper_tag_mismatch :
    handleWhisper [] [(1, "alice"), (2, "bob")] 1 "/whisper bob hi" "alice" =
      [(2, pmToRecipient "alice" "hi"), (1, pmToSender "bob" "hi")] ∧
      classifyReceived (pmToRecipient "alice" "hi") = "normal" := by decide

/-- Helper: the stripped character list does not begin with whitespace, so a
second leading strip changes nothing. -/
theorem pyStrip_dropWhile_self (s : String) :
    (pyStrip s).toList.dropWhile Char.isWhitespace = (pyStrip s).toList := by
  have hAself := List.dropWhile_idempotent Char.isWhitespace s.toList
  obtain ⟨t, ht⟩ :=
    List.rdropWhile_prefix Char.isWhitespace
      (s.toList.dropWhile Char.isWhitespace)
  have hRl : (pyStrip s).toList =
      List.rdropWhile Char.isWhitespace
        (s.toList.dropWhile Char.isWhitespace) := rfl
  rw [hRl]
  rcases hR : List.rdropWhile Char.isWhitespace
      (s.toList.dropWhile Char.isWhitespace) with _ | ⟨c, t2⟩
  · rfl
  · rw [hR] at ht
    have hc : Char.isWhitespace c = false := by
      by_contra hcc
      rw [Bool.not_eq_false] at hcc
      rw [← ht, List.cons_append, List.dropWhile_cons, if_pos hcc] at hAself
      have hlen : (List.dropWhile Char.isWhitespace (t2 ++ t)).length ≤
          (t2 ++ t).length :=
        (List.dropWhile_suffix Char.isWhitespace).length_le
      rw [hAself] at hlen
      simp at hlen
    rw [List.dropWhile_cons, if_neg (by simp [hc])]

/-- Helper: stripping is idempotent — stripping an already stripped string
changes nothing. -/
theorem pyStrip_idem (s : String) : pyStrip (pyStrip s) = pyStrip s := by
  show String.mk (List.rdropWhile Char.isWhitespace
      ((pyStrip s).toList.dropWhile Char.isWhitespace)) = pyStrip s
  rw [pyStrip_dropWhile_self]
  have hfix : List.rdropWhile Char.isWhitespace (pyStrip s).toList =
      (pyStrip s).toList := by
    have hRl : (pyStrip s).toList =
        List.rdropWhile Char.isWhitespace
          (s.toList.dropWhile Char.isWhitespace) := rfl
    rw [hRl]
    exact List.rdropWhile_idempotent Char.isWhitespace _
  rw [hfix]
  exact String.ext rfl

/-- C10: a name returned by username negotiation is nonempty, is its own
strip — so it stays nonempty after stripping surrounding whitespace — and
differs from every currently registered name; an empty or all-whitespace
submission never gets registered, negotiation moving on to the next
submission instead. -/
theorem username_negotiation_sound (registered subs : List String)
    (n : String) (h : getUsername registered subs = some n) :
    n ≠ "" ∧ pyStrip n = n ∧ n ∉ registered := by
  induction subs with
  | nil => simp [getUsername] at h
  | cons raw rest ih =>
    simp only [getUsername] at h
    split at h
    · rename_i hcond
      injection h with h
      subst h
      exact ⟨hcond.1, pyStrip_idem raw, hcond.2⟩
    · exact ih h

/-- Witness for C10: against registered name alice, the submissions
whitespace, alice, then padded bob negotiate to bob, which is nonempty,
already stripped and not previously registered. -/
theorem username_negotiation_sound_witness :
    ("bob" : String) ≠ "" ∧ pyStrip "bob" = "bob" ∧
      ("bob" : String) ∉ (["alice"] : List String) :=
  username_negotiation_sound ["alice"] ["   ", "alice", " bob "] "bob"
    (by decide)
